import Mathlib

/-!
Shallow embedding of `src/core/undoredo.js` (the `Blockly.Undoredo` widget).

The widget is a pair of clickable "Undo"/"Redo" SVG text labels sitting in a
workspace.  Its mutable state (`workspace_`, `svgGroup_`, `left_`, `top_`,
`verticalSpacing_`) is modelled as a Lean structure; each prototype method
becomes a state-passing function.  JavaScript `null`/`undefined` fields are
modelled with `Option`; a dereference of a null field is modelled by
returning `some JsError.typeError` in an explicit error channel (the state
component of the result keeps every mutation performed before the throw,
as in JavaScript).  The truthiness test `!this.verticalSpacing_` is modelled
by `jsTruthy`: `undefined` and `0` are falsy, every other number is truthy.
-/

namespace Blockly

/-- Toolbox position constants from `Blockly.constants`. -/
def TOOLBOX_AT_TOP : Int := 0

/-- Toolbox docked at the bottom edge. -/
def TOOLBOX_AT_BOTTOM : Int := 1

/-- Toolbox docked at the left edge. -/
def TOOLBOX_AT_LEFT : Int := 2

/-- Toolbox docked at the right edge. -/
def TOOLBOX_AT_RIGHT : Int := 3

/-- A JavaScript runtime failure (dereference of `null`/`undefined`). -/
inductive JsError where
  | typeError
  deriving DecidableEq, Repr

/-- The eight handler methods `Blockly.Undoredo.prototype.*MouseDown_` etc. -/
inductive Handler where
  | undoMouseDown_
  | undoMouseUp_
  | undoMouseOver_
  | undoMouseOut_
  | redoMouseDown_
  | redoMouseUp_
  | redoMouseOver_
  | redoMouseOut_
  deriving DecidableEq, Repr

/-- A call made on the workspace object: `workspace.undo(redo)`. -/
inductive WorkspaceCall where
  | undo (redo : Bool)
  deriving DecidableEq, Repr

/-- The workspace method calls a handler body performs.
`undoMouseDown_` runs `this.workspace_.undo(false)`,
`redoMouseDown_` runs `this.workspace_.undo(true)`;
every other handler body is empty (the `console.log` in the mousedown
handlers is not a workspace call). -/
def handlerCalls : Handler → List WorkspaceCall
  | Handler.undoMouseDown_ => [WorkspaceCall.undo false]
  | Handler.redoMouseDown_ => [WorkspaceCall.undo true]
  | _ => []

/-- Metrics snapshot returned by `workspace.getMetrics()`. -/
structure Metrics where
  viewWidth : Int
  viewHeight : Int
  absoluteLeft : Int
  absoluteTop : Int
  toolboxPosition : Int
  deriving DecidableEq, Repr

/-- The host workspace, as seen from `undoredo.js`: a metrics query
(`none` models a `null` result), the `horizontalLayout` and `RTL` flags. -/
structure Workspace where
  getMetricsResult : Option Metrics
  horizontalLayout : Bool
  RTL : Bool
  deriving DecidableEq, Repr

/-- `workspace.getMetrics()`. -/
def Workspace.getMetrics (w : Workspace) : Option Metrics :=
  w.getMetricsResult

/-- An SVG `<text>` element with its DOM event bindings. -/
structure SvgText where
  domId : String
  textContent : String
  handlers : List (String × Handler)
  deriving DecidableEq, Repr

/-- The handler bound to event `ev` on a text element, if any. -/
def lookupHandler (ev : String) (t : SvgText) : Option Handler :=
  (t.handlers.find? (fun p => p.1 == ev)).map Prod.snd

/-- The root SVG `<g>` element built by `createDom`: the two text children,
the current `transform` attribute (a translate pair once set), and a node
identity used to model DOM attachment/removal. -/
structure SvgGroup where
  className : String
  undoText : SvgText
  redoText : SvgText
  transform : Option (Int × Int)
  nodeId : Nat
  deriving DecidableEq, Repr

/-- The mutable fields of a `Blockly.Undoredo` instance.  `verticalSpacing_`
is `undefined` (here `none`) until `init` runs; `svgGroup_` is `null` until
`createDom` runs; `workspace_` becomes `null` after `dispose`. -/
structure Undoredo where
  workspace_ : Option Workspace
  svgGroup_ : Option SvgGroup
  left_ : Int
  top_ : Int
  verticalSpacing_ : Option Int
  deriving DecidableEq, Repr

/-- The constructor `Blockly.Undoredo = function(workspace)`: stores the
workspace; the other fields keep their prototype defaults. -/
def mkUndoredo (w : Workspace) : Undoredo :=
  { workspace_ := some w
    svgGroup_ := none
    left_ := 0
    top_ := 0
    verticalSpacing_ := none }

/-- `Blockly.Undoredo.prototype.WIDTH_`. -/
def Undoredo.WIDTH_ : Int := 47

/-- `Blockly.Undoredo.prototype.BODY_HEIGHT_`. -/
def Undoredo.BODY_HEIGHT_ : Int := 44

/-- `Blockly.Undoredo.prototype.MARGIN_BOTTOM_`. -/
def Undoredo.MARGIN_BOTTOM_ : Int := 20

/-- `Blockly.Undoredo.prototype.MARGIN_SIDE_`. -/
def Undoredo.MARGIN_SIDE_ : Int := 20

/-- JavaScript truthiness of the number field `verticalSpacing_`:
`undefined` and `0` are falsy. -/
def jsTruthy : Option Int → Bool
  | none => false
  | some v => v != 0

/-- `Blockly.Undoredo.prototype.createDom`: builds the group and the two
text elements, binds the four mouse events on each, stores the group in
`svgGroup_` and returns it.  `rnd` stands for the random id suffix and
`nid` for the fresh DOM node identity of the created group. -/
def Undoredo.createDom (u : Undoredo) (rnd : String) (nid : Nat) :
    Undoredo × SvgGroup :=
  let undo : SvgText :=
    { domId := "blocklyUndoText" ++ rnd
      textContent := "Undo"
      handlers :=
        [("mousedown", Handler.undoMouseDown_),
         ("mouseup", Handler.undoMouseUp_),
         ("mouseover", Handler.undoMouseOver_),
         ("mouseout", Handler.undoMouseOut_)] }
  let redo : SvgText :=
    { domId := "blocklyRedoText" ++ rnd
      textContent := "Redo"
      handlers :=
        [("mousedown", Handler.redoMouseDown_),
         ("mouseup", Handler.redoMouseUp_),
         ("mouseover", Handler.redoMouseOver_),
         ("mouseout", Handler.redoMouseOut_)] }
  let g : SvgGroup :=
    { className := "blocklyUndoredo"
      undoText := undo
      redoText := redo
      transform := none
      nodeId := nid }
  ({u with svgGroup_ := some g}, g)

/-- `Blockly.Undoredo.prototype.init`: stores
`verticalSpacing_ = MARGIN_BOTTOM_ + verticalSpacing` and returns
`verticalSpacing_ + BODY_HEIGHT_`. -/
def Undoredo.init (u : Undoredo) (verticalSpacing : Int) : Undoredo × Int :=
  let vs := Undoredo.MARGIN_BOTTOM_ + verticalSpacing
  ({u with verticalSpacing_ := some vs}, vs + Undoredo.BODY_HEIGHT_)

/-- `Blockly.utils.dom.removeNode`: detach a node from the DOM if attached
(the DOM is modelled as the list of attached node identities). -/
def removeNode (n : Nat) (dom : List Nat) : List Nat :=
  dom.erase n

/-- `Blockly.Undoredo.prototype.dispose`: if `svgGroup_` is non-null,
remove it from the DOM and null it; then null the workspace reference.
Every field access is guarded, so the error channel is always `none`. -/
def Undoredo.dispose (u : Undoredo) (dom : List Nat) :
    Undoredo × List Nat × Option JsError :=
  match u.svgGroup_ with
  | some g =>
      ({u with svgGroup_ := none, workspace_ := none},
       removeNode g.nodeId dom, none)
  | none =>
      ({u with workspace_ := none}, dom, none)

/-- `Blockly.Undoredo.prototype.position`, with
`sb = Blockly.Scrollbar.scrollbarThickness`.  Returns the updated instance
and `some typeError` when the JavaScript code would throw (dereference of a
null `workspace_` or a null `svgGroup_`); mutations made before the throw
point are kept, as in JavaScript. -/
def Undoredo.position (sb : Int) (u : Undoredo) : Undoredo × Option JsError :=
  if jsTruthy u.verticalSpacing_ then
    match u.workspace_ with
    | none => (u, some JsError.typeError)
    | some w =>
      match w.getMetrics with
      | none => (u, none)
      | some m =>
        let left : Int :=
          if m.toolboxPosition == TOOLBOX_AT_LEFT
              || (w.horizontalLayout && !w.RTL) then
            m.viewWidth + m.absoluteLeft - Undoredo.WIDTH_
              - Undoredo.MARGIN_SIDE_ - sb
          else
            Undoredo.MARGIN_SIDE_ + sb
        let top : Int :=
          if m.toolboxPosition == TOOLBOX_AT_BOTTOM then
            u.verticalSpacing_.getD 0
          else
            m.viewHeight + m.absoluteTop - Undoredo.BODY_HEIGHT_
              - u.verticalSpacing_.getD 0
        let u1 : Undoredo := {u with left_ := left, top_ := top}
        match u.svgGroup_ with
        | none =>
            (u1, some JsError.typeError)
        | some g =>
            ({u1 with svgGroup_ := some {g with transform := some (left, top)}},
             none)
  else
    (u, none)

/-! Concrete fixtures used by the witness theorems. -/

/-- A metrics snapshot with the toolbox at the left edge. -/
def mSample : Metrics :=
  { viewWidth := 300, viewHeight := 200, absoluteLeft := 10, absoluteTop := 5,
    toolboxPosition := TOOLBOX_AT_LEFT }

/-- A metrics snapshot with the toolbox at the bottom edge. -/
def mBottom : Metrics :=
  { viewWidth := 300, viewHeight := 200, absoluteLeft := 10, absoluteTop := 5,
    toolboxPosition := TOOLBOX_AT_BOTTOM }

/-- A metrics snapshot with the toolbox at the right edge. -/
def mRight : Metrics :=
  { viewWidth := 300, viewHeight := 200, absoluteLeft := 10, absoluteTop := 5,
    toolboxPosition := TOOLBOX_AT_RIGHT }

/-- A vertical-layout workspace with the toolbox at the left. -/
def wSample : Workspace :=
  { getMetricsResult := some mSample, horizontalLayout := false, RTL := false }

/-- A vertical-layout workspace with the toolbox at the bottom. -/
def wBottom : Workspace :=
  { getMetricsResult := some mBottom, horizontalLayout := false, RTL := false }

/-- A vertical-layout workspace with the toolbox at the right. -/
def wRight : Workspace :=
  { getMetricsResult := some mRight, horizontalLayout := false, RTL := false }

/-- A workspace whose metrics query returns no result. -/
def wNoMetrics : Workspace :=
  { getMetricsResult := none, horizontalLayout := false, RTL := false }

/-- An initialized widget (spacing 40) on `wSample`. -/
def uLeft : Undoredo :=
  {mkUndoredo wSample with verticalSpacing_ := some 40}

/-- An initialized widget (spacing 40) on `wBottom`. -/
def uBottom : Undoredo :=
  {mkUndoredo wBottom with verticalSpacing_ := some 40}

/-- An initialized widget (spacing 40) on `wRight`. -/
def uRight : Undoredo :=
  {mkUndoredo wRight with verticalSpacing_ := some 40}

/-- An initialized widget (spacing 40) on `wNoMetrics`. -/
def uNoMetrics : Undoredo :=
  {mkUndoredo wNoMetrics with verticalSpacing_ := some 40}

/-- A concrete root group, as built by `createDom`. -/
def gSample : SvgGroup :=
  ((mkUndoredo wSample).createDom "x" 7).2

/-- Helper: under an initialized widget with available metrics, the `left_`
and `top_` fields produced by `position` are the two branch expressions of
the source, whatever `svgGroup_` is. -/
theorem position_fields (sb : Int) (u : Undoredo) (w : Workspace) (m : Metrics)
    (ht : jsTruthy u.verticalSpacing_ = true)
    (hw : u.workspace_ = some w)
    (hm : w.getMetrics = some m) :
    (Undoredo.position sb u).1.left_ =
      (if m.toolboxPosition == TOOLBOX_AT_LEFT
          || (w.horizontalLayout && !w.RTL) then
        m.viewWidth + m.absoluteLeft - Undoredo.WIDTH_
          - Undoredo.MARGIN_SIDE_ - sb
       else
        Undoredo.MARGIN_SIDE_ + sb) ∧
    (Undoredo.position sb u).1.top_ =
      (if m.toolboxPosition == TOOLBOX_AT_BOTTOM then
        u.verticalSpacing_.getD 0
       else
        m.viewHeight + m.absoluteTop - Undoredo.BODY_HEIGHT_
          - u.verticalSpacing_.getD 0) := by
  unfold Undoredo.position
  rw [ht]
  simp only [if_true]
  rw [hw]
  simp only []
  rw [hm]
  cases hg : u.svgGroup_ <;> simp [hg]

/-- C1: for every widget, `createDom` binds `undoMouseDown_` to `mousedown`
on the "Undo" text and `redoMouseDown_` to `mousedown` on the "Redo" text;
the former calls `workspace.undo(false)` and nothing else, the latter calls
`workspace.undo(true)` and nothing else, and every handler bound to any
other event on the two elements performs no workspace call. -/
theorem createDom_mousedown_undo_redo (u : Undoredo) (rnd : String) (nid : Nat) :
    lookupHandler "mousedown" (u.createDom rnd nid).2.undoText
      = some Handler.undoMouseDown_ ∧
    handlerCalls Handler.undoMouseDown_ = [WorkspaceCall.undo false] ∧
    lookupHandler "mousedown" (u.createDom rnd nid).2.redoText
      = some Handler.redoMouseDown_ ∧
    handlerCalls Handler.redoMouseDown_ = [WorkspaceCall.undo true] ∧
    ((u.createDom rnd nid).2.undoText.handlers
        ++ (u.createDom rnd nid).2.redoText.handlers).all
      (fun p => p.1 == "mousedown" || (handlerCalls p.2).isEmpty) = true := by
  refine ⟨?_, rfl, ?_, rfl, ?_⟩
  · simp [Undoredo.createDom, lookupHandler]
  · simp [Undoredo.createDom, lookupHandler]
  · simp [Undoredo.createDom]
    decide

/-- C2: `init v` returns `MARGIN_BOTTOM_ + v + BODY_HEIGHT_ = v + 64` and
stores `verticalSpacing_ = 20 + v`. -/
theorem init_extent_and_spacing (u : Undoredo) (v : Int) :
    (u.init v).2 = v + 64 ∧
    (u.init v).1.verticalSpacing_ = some (20 + v) := by
  constructor
  · simp only [Undoredo.init, Undoredo.MARGIN_BOTTOM_, Undoredo.BODY_HEIGHT_]
    omega
  · simp [Undoredo.init, Undoredo.MARGIN_BOTTOM_]

/-- C3: on an initialized widget whose metrics report the toolbox at the
left, or whose workspace uses a horizontal left-to-right layout, `position`
sets `left_ = viewWidth + absoluteLeft - WIDTH_ - MARGIN_SIDE_ - sb`. -/
theorem position_toolbox_left_offset (sb : Int) (u : Undoredo)
    (w : Workspace) (m : Metrics)
    (ht : jsTruthy u.verticalSpacing_ = true)
    (hw : u.workspace_ = some w)
    (hm : w.getMetrics = some m)
    (hc : m.toolboxPosition = TOOLBOX_AT_LEFT ∨
      (w.horizontalLayout = true ∧ w.RTL = false)) :
    (Undoredo.position sb u).1.left_ =
      m.viewWidth + m.absoluteLeft - Undoredo.WIDTH_
        - Undoredo.MARGIN_SIDE_ - sb := by
  have hcb : (m.toolboxPosition == TOOLBOX_AT_LEFT
      || (w.horizontalLayout && !w.RTL)) = true := by
    rcases hc with h | ⟨h1, h2⟩
    · simp [h]
    · simp [h1, h2]
  have := (position_fields sb u w m ht hw hm).1
  rw [this, if_pos hcb]

/-- C3 witness: on the concrete widget `uLeft` (toolbox at left,
scrollbar thickness 15), the left offset is `300 + 10 - 47 - 20 - 15`. -/
theorem position_toolbox_left_offset_witness :
    (Undoredo.position 15 uLeft).1.left_ = 228 := by
  have h := position_toolbox_left_offset 15 uLeft wSample mSample
    (by decide) rfl rfl (Or.inl rfl)
  simpa [mSample, Undoredo.WIDTH_, Undoredo.MARGIN_SIDE_] using h

/-- C4: on an initialized widget whose metrics report the toolbox at the
bottom, `position` sets `top_` to the recorded vertical spacing. -/
theorem position_toolbox_bottom_top_offset (sb vs : Int) (u : Undoredo)
    (w : Workspace) (m : Metrics)
    (hvs : u.verticalSpacing_ = some vs)
    (hne : vs ≠ 0)
    (hw : u.workspace_ = some w)
    (hm : w.getMetrics = some m)
    (htb : m.toolboxPosition = TOOLBOX_AT_BOTTOM) :
    (Undoredo.position sb u).1.top_ = vs := by
  have ht : jsTruthy u.verticalSpacing_ = true := by
    simp [jsTruthy, hvs, hne]
  have := (position_fields sb u w m ht hw hm).2
  rw [this, if_pos (by simp [htb]), hvs]
  rfl

/-- C4 witness: on the concrete widget `uBottom` (toolbox at bottom,
recorded spacing 40), the top offset is 40. -/
theorem position_toolbox_bottom_top_offset_witness :
    (Undoredo.position 15 uBottom).1.top_ = 40 :=
  position_toolbox_bottom_top_offset 15 40 uBottom wBottom mBottom
    rfl (by decide) rfl rfl rfl

/-- C5: on an initialized widget with metrics available, in the remaining
branches `position` places the widget opposite the toolbox: when the
toolbox is not at the left and the layout is not horizontal left-to-right,
`left_ = MARGIN_SIDE_ + sb`; when the toolbox is not at the bottom,
`top_ = viewHeight + absoluteTop - BODY_HEIGHT_ - verticalSpacing_`. -/
theorem position_opposite_corner (sb vs : Int) (u : Undoredo)
    (w : Workspace) (m : Metrics)
    (hvs : u.verticalSpacing_ = some vs)
    (hne : vs ≠ 0)
    (hw : u.workspace_ = some w)
    (hm : w.getMetrics = some m) :
    (m.toolboxPosition ≠ TOOLBOX_AT_LEFT →
      ¬(w.horizontalLayout = true ∧ w.RTL = false) →
      (Undoredo.position sb u).1.left_ = Undoredo.MARGIN_SIDE_ + sb) ∧
    (m.toolboxPosition ≠ TOOLBOX_AT_BOTTOM →
      (Undoredo.position sb u).1.top_ =
        m.viewHeight + m.absoluteTop - Undoredo.BODY_HEIGHT_ - vs) := by
  have ht : jsTruthy u.verticalSpacing_ = true := by
    simp [jsTruthy, hvs, hne]
  have hf := position_fields sb u w m ht hw hm
  constructor
  · intro h1 h2
    have hcb : (m.toolboxPosition == TOOLBOX_AT_LEFT
        || (w.horizontalLayout && !w.RTL)) = false := by
      cases hhl : w.horizontalLayout <;> cases hrtl : w.RTL <;>
        simp_all [beq_iff_eq]
    rw [hf.1, if_neg (by simp [hcb])]
  · intro h1
    have hcb : (m.toolboxPosition == TOOLBOX_AT_BOTTOM) = false := by
      simp [beq_iff_eq, h1]
    rw [hf.2, if_neg (by simp [hcb]), hvs]
    rfl

/-- C5 witness: on the concrete widget `uRight` (toolbox at right, vertical
layout, spacing 40, scrollbar thickness 15): `left_ = 20 + 15 = 35` and
`top_ = 200 + 5 - 44 - 40 = 121`. -/
theorem position_opposite_corner_witness :
    (Undoredo.position 15 uRight).1.left_ = 35 ∧
    (Undoredo.position 15 uRight).1.top_ = 121 := by
  have h := position_opposite_corner 15 40 uRight wRight mRight
    rfl (by decide) rfl rfl
  constructor
  · have := h.1 (by decide) (by simp [wRight])
    simpa [Undoredo.MARGIN_SIDE_] using this
  · have := h.2 (by decide)
    simpa [mRight, Undoredo.BODY_HEIGHT_] using this

/-- C6: before `init` has run (`verticalSpacing_` is `undefined`),
`position` is a no-op: the state is returned unchanged and no error is
raised.  The second conjunct shows that the workspace is never consulted:
the same no-op result holds even with the workspace reference nulled. -/
theorem position_uninitialized_noop (sb : Int) (u : Undoredo)
    (h : u.verticalSpacing_ = none) :
    Undoredo.position sb u = (u, none) ∧
    Undoredo.position sb {u with workspace_ := none} =
      ({u with workspace_ := none}, none) := by
  constructor <;> simp [Undoredo.position, h, jsTruthy]

/-- C6 witness: on a freshly constructed widget, `position` is a no-op. -/
theorem position_uninitialized_noop_witness :
    Undoredo.position 3 (mkUndoredo wSample) = (mkUndoredo wSample, none) ∧
    Undoredo.position 3 {mkUndoredo wSample with workspace_ := none} =
      ({mkUndoredo wSample with workspace_ := none}, none) :=
  position_uninitialized_noop 3 (mkUndoredo wSample) rfl

/-- C7: on an initialized widget whose workspace metrics query returns no
result, `position` returns the state unchanged and raises no error. -/
theorem position_no_metrics_noop (sb : Int) (u : Undoredo) (w : Workspace)
    (hw : u.workspace_ = some w)
    (hm : w.getMetrics = none) :
    Undoredo.position sb u = (u, none) := by
  unfold Undoredo.position
  by_cases ht : jsTruthy u.verticalSpacing_
  · rw [if_pos ht, hw]
    simp [hm]
  · rw [if_neg ht]

/-- C7 witness: on the concrete initialized widget `uNoMetrics`, whose
workspace reports no metrics, `position` is a no-op. -/
theorem position_no_metrics_noop_witness :
    Undoredo.position 3 uNoMetrics = (uNoMetrics, none) :=
  position_no_metrics_noop 3 uNoMetrics wNoMetrics rfl rfl

/-- C8: after `dispose`, `svgGroup_` and `workspace_` are null and no
error is raised; the root group, when present, is removed from the DOM;
and a second `dispose` call raises no error and changes nothing, leaving
both references null. -/
theorem dispose_clears_and_idempotent (u : Undoredo) (dom : List Nat) :
    (u.dispose dom).1.svgGroup_ = none ∧
    (u.dispose dom).1.workspace_ = none ∧
    (u.dispose dom).2.2 = none ∧
    (u.dispose dom).2.1 =
      (match u.svgGroup_ with
       | some g => removeNode g.nodeId dom
       | none => dom) ∧
    (u.dispose dom).1.dispose (u.dispose dom).2.1 =
      ((u.dispose dom).1, (u.dispose dom).2.1, none) := by
  cases hg : u.svgGroup_ <;> simp [Undoredo.dispose, hg]

/-- C9 counterexample: `position` called after `dispose` on an initialized
widget throws a `TypeError` (the nulled `workspace_` is dereferenced),
refuting the claim that no lifecycle order surfaces a failure. -/
theorem position_after_dispose_throws :
    (Undoredo.position 15
      (((((mkUndoredo wSample).createDom "0" 7).1.init 0).1.dispose []).1)).2
      = some JsError.typeError := rfl

/-- C9 amended: `dispose` never throws, and `position` never throws when
the widget is uninitialized, when the metrics query returns no result, or
when the widget still holds both its workspace reference and its DOM root;
but `position` does throw a `TypeError` on an initialized widget whose
workspace reference is null (after `dispose`), or whose DOM root was never
created while metrics are available. -/
theorem lifecycle_guarded_no_throw (sb : Int) (u : Undoredo)
    (dom : List Nat) (w : Workspace) (m : Metrics) (g : SvgGroup) :
    (u.dispose dom).2.2 = none ∧
    (Undoredo.position sb {u with verticalSpacing_ := none}).2 = none ∧
    (Undoredo.position sb
      {u with workspace_ := some {w with getMetricsResult := none}}).2
      = none ∧
    (Undoredo.position sb
      {u with workspace_ := some w, svgGroup_ := some g}).2 = none ∧
    (jsTruthy u.verticalSpacing_ = true → u.workspace_ = none →
      (Undoredo.position sb u).2 = some JsError.typeError) ∧
    (jsTruthy u.verticalSpacing_ = true → u.workspace_ = some w →
      w.getMetrics = some m → u.svgGroup_ = none →
      (Undoredo.position sb u).2 = some JsError.typeError) := by
  refine ⟨?_, ?_, ?_, ?_, ?_, ?_⟩
  · exact (dispose_clears_and_idempotent u dom).2.2.1
  · simp [Undoredo.position, jsTruthy]
  · by_cases ht : jsTruthy u.verticalSpacing_ <;>
      simp [Undoredo.position, ht, Workspace.getMetrics]
  · by_cases ht : jsTruthy u.verticalSpacing_
    · cases hm : w.getMetrics <;>
        simp [Undoredo.position, ht, hm]
    · simp [Undoredo.position, ht]
  · intro ht hw
    simp [Undoredo.position, ht, hw]
  · intro ht hw hm hg
    simp [Undoredo.position, ht, hw, hm, hg]

/-- C9 amended witness: concrete instances of the no-throw and throw
cases of the amended claim. -/
theorem lifecycle_guarded_no_throw_witness :
    (Undoredo.position 15
      {mkUndoredo wSample with verticalSpacing_ := none}).2 = none ∧
    (Undoredo.position 15
      {mkUndoredo wSample with workspace_ := none, verticalSpacing_ := some 20}).2
      = some JsError.typeError := by
  have h := lifecycle_guarded_no_throw 15
    {mkUndoredo wSample with workspace_ := none, verticalSpacing_ := some 20}
    [] wSample mSample gSample
  have h2 := lifecycle_guarded_no_throw 15 (mkUndoredo wSample)
    [] wSample mSample gSample
  exact ⟨h2.2.1, h.2.2.2.2.1 (by decide) rfl⟩

/-- C10: the initialization check in `position` is a truthiness test, so a
stored spacing of 0 counts as uninitialized: after `init (-20)` (making
`MARGIN_BOTTOM_ + v = 0`), every `position` call is a no-op, changing
neither the coordinates nor the transform and raising no error. -/
theorem init_zero_spacing_position_noop (sb : Int) (u : Undoredo) :
    Undoredo.position sb (u.init (-20)).1 = ((u.init (-20)).1, none) := by
  have hvs : (u.init (-20)).1.verticalSpacing_ = some 0 := by
    simp [Undoredo.init, Undoredo.MARGIN_BOTTOM_]
  simp [Undoredo.position, hvs, jsTruthy]

end Blockly
